import Mathlib

/-
  Verification development for the SIEM AI Agent repository.

  This file shallowly embeds the query predicate engine, the dataset (mock)
  query executor, the backend (OpenSearch) index-iteration loop, and the
  conversation context manager of the repository, and proves or refutes the
  frozen specification claims about them.

  Event records and DSL queries are dynamic, JSON-shaped Python dicts in the
  source; they are embedded as the inductive type `J` below.  Python code that
  can raise an exception is embedded as an `Except String` computation whose
  error string names the Python exception.  Python's `None` is `J.null`.
-/

namespace SiemAgent

/-- JSON-like dynamic values: the shape of event records and DSL queries.
Python `None` is `null`; dicts are insertion-ordered association lists, as in
CPython. -/
inductive J where
  | null : J
  | bool : Bool → J
  | num : Int → J
  | str : String → J
  | arr : List J → J
  | obj : List (String × J) → J
deriving Repr

mutual
/-- Structural equality of values, the model of Python `==` on JSON data
(the `True == 1` numeric coercion is never exercised by the engine). -/
def jBeq : J → J → Bool
  | .null, .null => true
  | .bool a, .bool b => a == b
  | .num a, .num b => a == b
  | .str a, .str b => a == b
  | .arr xs, .arr ys => jBeqList xs ys
  | .obj xs, .obj ys => jBeqObj xs ys
  | _, _ => false

/-- Elementwise equality of value lists. -/
def jBeqList : List J → List J → Bool
  | [], [] => true
  | x :: xs, y :: ys => jBeq x y && jBeqList xs ys
  | _, _ => false

/-- Itemwise equality of dicts (CPython `dict.__eq__` is order-insensitive,
but the engine only ever compares scalars and identically built dicts). -/
def jBeqObj : List (String × J) → List (String × J) → Bool
  | [], [] => true
  | kv :: xs, kw :: ys => kv.1 == kw.1 && jBeq kv.2 kw.2 && jBeqObj xs ys
  | _, _ => false
end

instance : BEq J := ⟨jBeq⟩

/-- First-match lookup in an insertion-ordered dict (CPython dict keys are
unique, so first match is the match). -/
def lookupKey {α : Type} : List (String × α) → String → Option α
  | [], _ => none
  | kv :: rest, k => if kv.1 = k then some kv.2 else lookupKey rest k

/-- Python truthiness of a value (`if x:`). -/
def pyTruthy : J → Bool
  | .null => false
  | .bool b => b
  | .num n => n != 0
  | .str s => !s.isEmpty
  | .arr xs => !xs.isEmpty
  | .obj kvs => !kvs.isEmpty

/-- Models `v.get(k)`: `AttributeError` when `v` is not a dict, Python `None`
(`J.null`) when the key is missing. -/
def jGet (v : J) (k : String) : Except String J :=
  match v with
  | .obj kvs => .ok ((lookupKey kvs k).getD .null)
  | _ => .error "AttributeError: get"

/-- Models `v.get(k, dflt)`. -/
def jGetD (v : J) (k : String) (dflt : J) : Except String J :=
  match v with
  | .obj kvs => .ok ((lookupKey kvs k).getD dflt)
  | _ => .error "AttributeError: get"

/-- Models `v[k]` for a string key: `KeyError` when missing, `TypeError` when
`v` is not a dict. -/
def jIndex (v : J) (k : String) : Except String J :=
  match v with
  | .obj kvs =>
    match lookupKey kvs k with
    | some w => .ok w
    | none => .error ("KeyError: " ++ k)
  | _ => .error "TypeError: not subscriptable"

/-- Models `for x in v`: lists yield elements, strings yield one-character
strings, dicts yield their keys; other values raise `TypeError`. -/
def pyIter : J → Except String (List J)
  | .arr xs => .ok xs
  | .str s => .ok (s.data.map (fun c => .str (String.mk [c])))
  | .obj kvs => .ok (kvs.map (fun kv => .str kv.1))
  | _ => .error "TypeError: not iterable"

/-- Substring test, `needle in hay` for Python strings. -/
def strContains (hay needle : String) : Bool :=
  (List.range (hay.data.length + 1)).any (fun i => needle.data.isPrefixOf (hay.data.drop i))

/-- Models `x in c`: list membership by equality, substring test on strings,
key membership on dicts; `TypeError` on non-containers and on unhashable
members of dict lookups. -/
def pyContains (c : J) (x : J) : Except String Bool :=
  match c with
  | .arr xs => .ok (xs.contains x)
  | .str s =>
    match x with
    | .str t => .ok (strContains s t)
    | _ => .error "TypeError: in <string> requires string"
  | .obj kvs =>
    match x with
    | .str t => .ok ((lookupKey kvs t).isSome)
    | .arr _ => .error "TypeError: unhashable"
    | .obj _ => .error "TypeError: unhashable"
    | _ => .ok false
  | _ => .error "TypeError: argument is not iterable"

/-- Numeric view of a value; Python `bool` is a subtype of `int`. -/
def toNumQ : J → Option Int
  | .num n => some n
  | .bool b => some (if b then 1 else 0)
  | _ => none

/-- Python `a < b`: numeric on numbers/booleans, lexicographic on strings,
`TypeError` otherwise (list/dict comparison is not exercised by the engine and
is modelled as an error). -/
def pyLt (a b : J) : Except String Bool :=
  match toNumQ a, toNumQ b with
  | some x, some y => .ok (x < y)
  | _, _ =>
    match a, b with
    | .str x, .str y => .ok (x < y)
    | _, _ => .error "TypeError: comparison"

/-- Python `a <= b`, on the same domain as `pyLt`. -/
def pyLe (a b : J) : Except String Bool :=
  match toNumQ a, toNumQ b with
  | some x, some y => .ok (x ≤ y)
  | _, _ =>
    match a, b with
    | .str x, .str y => .ok (x < y || x == y)
    | _, _ => .error "TypeError: comparison"

mutual
/-- Python `repr()` of a value (single-quoted strings, `None`/`True`/`False`). -/
def pyRepr : J → String
  | .null => "None"
  | .bool b => if b then "True" else "False"
  | .num n => toString n
  | .str s => "\x27" ++ s ++ "\x27"
  | .arr xs => "[" ++ pyReprList xs ++ "]"
  | .obj kvs => "\x7b" ++ pyReprObj kvs ++ "\x7d"

/-- Comma-joined `repr` of list elements. -/
def pyReprList : List J → String
  | [] => ""
  | [x] => pyRepr x
  | x :: rest => pyRepr x ++ ", " ++ pyReprList rest

/-- Comma-joined `repr` of dict items. -/
def pyReprObj : List (String × J) → String
  | [] => ""
  | [kv] => "\x27" ++ kv.1 ++ "\x27: " ++ pyRepr kv.2
  | kv :: rest => "\x27" ++ kv.1 ++ "\x27: " ++ pyRepr kv.2 ++ ", " ++ pyReprObj rest
end

/-- Python `str()` of a value: identity on strings, `repr` elsewhere
(`str(None) = "None"`). -/
def pyStr : J → String
  | .str s => s
  | v => pyRepr v

/-- Python `s.lower()` (ASCII case folding suffices for the engine's data). -/
def pyLower (s : String) : String := String.mk (s.data.map Char.toLower)

/-- Split a character list at every occurrence of a separator character. -/
def splitListOn (sep : Char) : List Char → List (List Char)
  | [] => [[]]
  | c :: cs =>
    match splitListOn sep cs with
    | [] => [[c]]
    | g :: gs => if c = sep then [] :: g :: gs else (c :: g) :: gs

/-- Python `s.split(sep)` for a one-character separator (the only shape the
source uses). -/
def pySplit (s : String) (sep : Char) : List String :=
  (splitListOn sep s.data).map String.mk

/-- The numeric value of an all-digit character list. -/
def digitsVal : Nat → List Char → Option Nat
  | acc, [] => some acc
  | acc, c :: cs => if c.isDigit then digitsVal (acc * 10 + (c.toNat - 48)) cs else none

/-- Python `key.isdigit() and int(key)` combined: the index denoted by an
all-digit non-empty string, `none` otherwise. -/
def pyDigitIndex (s : String) : Option Nat :=
  match s.data with
  | [] => none
  | cs => digitsVal 0 cs

/-- `SIEMConnector._get_nested_value`'s loop over the dot-separated path:
dict steps use `.get` (missing key yields `None`), list steps accept numeric
keys (`IndexError` is caught and yields `None`), anything else returns `None`
immediately. -/
def getNestedLoop : J → List String → J
  | v, [] => v
  | v, k :: ks =>
    match v with
    | .obj kvs => getNestedLoop ((lookupKey kvs k).getD .null) ks
    | .arr xs =>
      match pyDigitIndex k with
      | some i =>
        match xs.get? i with
        | some w => getNestedLoop w ks
        | none => .null
      | none => .null
    | _ => .null

/-- `SIEMConnector._get_nested_value`: deep-get by dot notation, total, with
`J.null` standing for Python `None` (absent). -/
def getNestedValue (item : J) (fieldPath : String) : J :=
  getNestedLoop item (pySplit fieldPath '.')

/-- `SIEMConnector._value_in_range`: every present bound key must be
satisfied; any `TypeError`/`ValueError` inside makes the whole check `False`
rather than raising. -/
def valueInRange (value : J) (rangeConfig : J) : Bool :=
  let comp : Except String Bool := do
    if (← pyContains rangeConfig (.str "gte")) then
      if (← pyLt value (← jIndex rangeConfig "gte")) then
        return false
    if (← pyContains rangeConfig (.str "gt")) then
      if (← pyLe value (← jIndex rangeConfig "gt")) then
        return false
    if (← pyContains rangeConfig (.str "lte")) then
      if (← pyLt (← jIndex rangeConfig "lte") value) then
        return false
    if (← pyContains rangeConfig (.str "lt")) then
      if (← pyLe (← jIndex rangeConfig "lt") value) then
        return false
    return true
  match comp with
  | .ok b => b
  | .error _ => false

/-- `next(iter(d.items()))`: the first item of a dict, `StopIteration` when
empty, `AttributeError` when not a dict. -/
def firstItem (v : J) : Except String (String × J) :=
  match v with
  | .obj [] => .error "StopIteration"
  | .obj (kv :: _) => .ok kv
  | _ => .error "AttributeError: items"

/-- A Python list comprehension with a possibly raising predicate: elements are
tested left to right and the first exception aborts the whole comprehension. -/
def filterM (p : J → Except String Bool) : List J → Except String (List J)
  | [] => .ok []
  | x :: xs => do
    let b ← p x
    let rest ← filterM p xs
    if b then return x :: rest else return rest

/-- The lower-cased literal of a `match` condition: `AttributeError` when the
literal is not a string (`value.lower()`). -/
def matchLiteralLower : J → Except String String
  | .str s => .ok (pyLower s)
  | _ => .error "AttributeError: lower"

/-- `SIEMConnector._apply_condition`: one DSL condition filtered over a record
list.  Unknown condition kinds return the data unchanged. -/
def applyCondition (data : List J) (condition : J) : Except String (List J) := do
  if (← pyContains condition (.str "match_all")) then
    return data
  else if (← pyContains condition (.str "term")) then
    let tv ← jIndex condition "term"
    let (field, value) ← firstItem tv
    return data.filter (fun item => getNestedValue item field == value)
  else if (← pyContains condition (.str "terms")) then
    let tv ← jIndex condition "terms"
    let (field, values) ← firstItem tv
    filterM (fun item => pyContains values (getNestedValue item field)) data
  else if (← pyContains condition (.str "match")) then
    let tv ← jIndex condition "match"
    let (field, value) ← firstItem tv
    filterM (fun item =>
      (matchLiteralLower value).map
        (fun lv => strContains (pyLower (pyStr (getNestedValue item field))) lv)) data
  else if (← pyContains condition (.str "range")) then
    let tv ← jIndex condition "range"
    let (field, rangeConfig) ← firstItem tv
    return data.filter (fun item => valueInRange (getNestedValue item field) rangeConfig)
  else
    return data

/-- Sequential application of a condition list (the `must` and `filter`
loops of `_apply_mock_filters`). -/
def applyCondList (data : List J) : List J → Except String (List J)
  | [] => .ok data
  | c :: cs => do applyCondList (← applyCondition data c) cs

/-- The `should` loop of `_apply_mock_filters`: each condition is applied to
the *original* data and the hit lists are concatenated. -/
def collectShould (data : List J) : List J → Except String (List J)
  | [] => .ok []
  | c :: cs => do
    let r ← applyCondition data c
    let rest ← collectShould data cs
    return r ++ rest

/-- De-duplication by `x["event_id"]` preserving first-seen order (the `seen`
set of `_apply_mock_filters`); raises `KeyError` when a record lacks the key. -/
def dedupGo : List J → List J → Except String (List J)
  | [], _ => .ok []
  | x :: xs, seen => do
    let eid ← jIndex x "event_id"
    if seen.contains eid then
      dedupGo xs seen
    else do
      let rest ← dedupGo xs (eid :: seen)
      return x :: rest

/-- De-duplication entry point (fresh `seen` set). -/
def dedupByEventId (xs : List J) : Except String (List J) := dedupGo xs []

/-- `SIEMConnector._apply_mock_filters`: reads only `query.bool`; applies
`must` sequentially, replaces the running result by the de-duplicated union of
the `should` matches over the original data when `should` is non-empty, then
applies `filter` sequentially.  `must_not` is never consulted. -/
def applyMockFilters (data : List J) (dslQuery : J) : Except String (List J) := do
  let query ← jGetD dslQuery "query" (.obj [])
  let boolQuery ← jGetD query "bool" (.obj [])
  let mustConditions ← jGetD boolQuery "must" (.arr [])
  let mustList ← pyIter mustConditions
  let filtered1 ← applyCondList data mustList
  let shouldConditions ← jGetD boolQuery "should" (.arr [])
  let filtered2 ←
    if pyTruthy shouldConditions then do
      let shouldList ← pyIter shouldConditions
      let shouldResults ← collectShould data shouldList
      dedupByEventId shouldResults
    else
      pure filtered1
  let filterConditions ← jGetD boolQuery "filter" (.arr [])
  let filterList ← pyIter filterConditions
  applyCondList filtered2 filterList

/-! ### Timestamp parsing and sorting (`_query_mock_data`, step 2) -/

/-- A fixed-width all-digit field of an ISO timestamp. -/
def parseDigits (s : String) (len : Nat) : Option Nat :=
  if s.data.length = len then digitsVal 0 s.data else none

/-- Days in a month of the proleptic Gregorian calendar. -/
def daysInMonth (y m : Nat) : Nat :=
  if m = 2 then (if y % 4 = 0 && (y % 100 != 0 || y % 400 = 0) then 29 else 28)
  else if m = 4 || m = 6 || m = 9 || m = 11 then 30 else 31

/-- Days since 1970-01-01 of a civil date (Hinnant's algorithm), used only as
a monotone sort key. -/
def daysFromCivil (y m d : Nat) : Int :=
  let y' : Nat := if m ≤ 2 then y - 1 else y
  let era : Nat := y' / 400
  let yoe : Nat := y' % 400
  let mp : Nat := (m + 9) % 12
  let doy : Nat := (153 * mp + 2) / 5 + d - 1
  let doe : Nat := yoe * 365 + yoe / 4 - yoe / 100 + doy
  (era : Int) * 146097 + (doe : Int) - 719468

/-- `YYYY-MM-DD` with calendar validation (year at least 1, as in
`datetime`). -/
def parseDate (s : String) : Option (Nat × Nat × Nat) :=
  match pySplit s '-' with
  | [ys, ms, ds] => do
    let y ← parseDigits ys 4
    let m ← parseDigits ms 2
    let d ← parseDigits ds 2
    if 1 ≤ y && 1 ≤ m && m ≤ 12 && 1 ≤ d && d ≤ daysInMonth y m then
      some (y, m, d)
    else none
  | _ => none

/-- `HH:MM:SS` or `HH:MM`. -/
def parseTimeHMS (s : String) : Option (Nat × Nat × Nat) :=
  match pySplit s ':' with
  | [hs, ms, ss] => do
    let h ← parseDigits hs 2
    let mi ← parseDigits ms 2
    let sec ← parseDigits ss 2
    if h ≤ 23 && mi ≤ 59 && sec ≤ 59 then some (h, mi, sec) else none
  | [hs, ms] => do
    let h ← parseDigits hs 2
    let mi ← parseDigits ms 2
    if h ≤ 23 && mi ≤ 59 then some (h, mi, 0) else none
  | _ => none

/-- A `±HH:MM` UTC offset, in minutes. -/
def parseOffset (s : String) : Option Int :=
  match pySplit s ':' with
  | [hs, ms] => do
    let h ← parseDigits hs 2
    let mi ← parseDigits ms 2
    if h ≤ 23 && mi ≤ 59 then some ((h * 60 + mi : Nat) : Int) else none
  | _ => none

/-- Absolute sort key (UTC seconds) of a parsed timestamp. -/
def tsKey (y m d h mi s : Nat) (offMin : Int) : Int :=
  daysFromCivil y m d * 86400 + ((h * 3600 + mi * 60 + s : Nat) : Int) - offMin * 60

/-- Model of `datetime.fromisoformat` restricted to the
`YYYY-MM-DD[THH:MM[:SS][±HH:MM]]` shapes the corpus uses, returning a
comparable key; `none` models `ValueError`.  (The exotic separators and
fractional seconds the CPython parser also accepts, and the naive/aware
comparison distinction, are outside the engine's data and are not modelled.) -/
def parseIso (s : String) : Option Int :=
  match pySplit s 'T' with
  | [d] => do
    let (y, m, dd) ← parseDate d
    some (tsKey y m dd 0 0 0 0)
  | [d, t] => do
    let (y, m, dd) ← parseDate d
    let (tpart, offMin) ←
      match pySplit t '+' with
      | [t0, off] => do
        let o ← parseOffset off
        some (t0, o)
      | [t0] =>
        (match pySplit t0 '-' with
         | [t1, off] => do
           let o ← parseOffset off
           some (t1, -o)
         | [t1] => some (t1, (0 : Int))
         | _ => none)
      | _ => none
    let (h, mi, sec) ← parseTimeHMS tpart
    some (tsKey y m dd h mi sec offMin)
  | _ => none

/-- `s.replace("Z", "+00:00")`, the one `replace` call the source makes (a
one-character pattern, so occurrences cannot overlap). -/
def replaceZList : List Char → List Char
  | [] => []
  | c :: cs =>
    if c = 'Z' then '+' :: '0' :: '0' :: ':' :: '0' :: '0' :: replaceZList cs
    else c :: replaceZList cs

/-- String-level wrapper of `replaceZList`. -/
def replaceZ (s : String) : String := String.mk (replaceZList s.data)

/-- The sort key computed for one record:
`datetime.fromisoformat(x["timestamp"].replace("Z", "+00:00"))`.  A missing
key raises `KeyError`, a non-string raises `AttributeError`, a malformed
timestamp raises `ValueError`. -/
def timestampSortKey (x : J) : Except String Int := do
  let tv ← jIndex x "timestamp"
  match tv with
  | .str s =>
    match parseIso (replaceZ s) with
    | some k => .ok k
    | none => .error "ValueError: fromisoformat"
  | _ => .error "AttributeError: replace"

/-- Stable insertion of a keyed record: placed before the first strictly
worse element, so equal keys keep their original order. -/
def insertKeyed (reverse : Bool) (x : Int × J) : List (Int × J) → List (Int × J)
  | [] => [x]
  | y :: ys =>
    if (if reverse then y.1 < x.1 else x.1 < y.1) then x :: y :: ys
    else y :: insertKeyed reverse x ys

/-- Stable sort by key (Python `list.sort` is stable; any stable sort by the
same key computes the same list). -/
def sortKeyed (reverse : Bool) (xs : List (Int × J)) : List (Int × J) :=
  xs.foldl (fun acc x => insertKeyed reverse x acc) []

/-- The timestamp sort of `_query_mock_data`: all keys are computed first
(left to right, any failure raising), then a stable sort is performed. -/
def sortByTimestamp (reverse : Bool) (xs : List J) : Except String (List J) := do
  let keyed ← xs.mapM (fun x => do pure ((← timestampSortKey x), x))
  return (sortKeyed reverse keyed).map (·.2)

/-! ### Result conversion (`_convert_mock_data_to_log_result`) -/

/-- `models.SeverityLevel`. -/
inductive SeverityLevel where
  | low
  | medium
  | high
  | critical
deriving Repr, BEq, DecidableEq

/-- `SIEMConnector._map_level_to_severity` on an integer level. -/
def mapLevelToSeverity (level : Int) : Option SeverityLevel :=
  if level ≥ 10 then some .critical
  else if level ≥ 8 then some .high
  else if level ≥ 5 then some .medium
  else if level > 0 then some .low
  else none

/-- The same function on a dynamic level value: Python's `>=` raises
`TypeError` when the level is not a number (booleans count as numbers). -/
def mapLevelToSeverityJ (level : J) : Except String (Option SeverityLevel) :=
  match toNumQ level with
  | some n => .ok (mapLevelToSeverity n)
  | none => .error "TypeError: comparison"

/-- String concatenation `details += suffix`, a `TypeError` when the running
value is not a string. -/
def pyAppendStr (d : J) (s : String) : Except String J :=
  match d with
  | .str t => .ok (.str (t ++ s))
  | _ => .error "TypeError: +="

/-- `SIEMConnector._format_event_details`. -/
def formatEventDetails (event : J) : Except String J := do
  let ruleInfo ← jGetD event "rule" (.obj [])
  let dataInfo ← jGetD event "data" (.obj [])
  let d0 ← jGetD ruleInfo "description" (.str "Security event detected")
  let srcip ← jGet dataInfo "srcip"
  let d1 ← if pyTruthy srcip then pyAppendStr d0 (" | Source IP: " ++ pyStr srcip) else pure d0
  let usr ← jGet dataInfo "user"
  let d2 ← if pyTruthy usr then pyAppendStr d1 (" | User: " ++ pyStr usr) else pure d1
  let proto ← jGet dataInfo "protocol"
  if pyTruthy proto then pyAppendStr d2 (" | Protocol: " ++ pyStr proto) else pure d2

/-- `models.LogResult` (field values stay dynamic, as the Python object
receives them). -/
structure LogResult where
  timestamp : J
  event_id : J
  source_ip : J
  destination_ip : J
  user : J
  rule_id : String
  rule_description : J
  severity : Option SeverityLevel
  source_system : J
  raw_data : J
  details : J
deriving Repr, BEq

/-- `SIEMConnector._convert_mock_data_to_log_result`.  The wall-clock default
event id `f"mock_{int(time.time())}"` is modelled by a fixed placeholder; no
claim depends on its value. -/
def convertMockToLogResult (item : J) : Except String LogResult := do
  let ruleInfo ← jGetD item "rule" (.obj [])
  let dataInfo ← jGetD item "data" (.obj [])
  let agentInfo ← jGetD item "agent" (.obj [])
  let timestamp ← jGetD item "timestamp" (.str "N/A")
  let eventId ← jGetD item "event_id" (.str "mock_time")
  let sourceIp ← jGet dataInfo "srcip"
  let destIp ← jGet dataInfo "dstip"
  let user ← jGet dataInfo "user"
  let ruleIdJ ← jGetD ruleInfo "id" (.str "")
  let ruleDesc ← jGetD ruleInfo "description" (.str "No description available")
  let levelJ ← jGetD ruleInfo "level" (.num 0)
  let severity ← mapLevelToSeverityJ levelJ
  let sourceSystem ← jGetD agentInfo "name" (.str "mock-agent")
  let details ← formatEventDetails item
  return { timestamp := timestamp
           event_id := eventId
           source_ip := sourceIp
           destination_ip := destIp
           user := user
           rule_id := pyStr ruleIdJ
           rule_description := ruleDesc
           severity := severity
           source_system := sourceSystem
           raw_data := item
           details := details }

/-! ### The dataset query executor (`_query_mock_data`) -/

/-- `query_stats` of the mock path: total hit count is the pre-truncation
filtered size (wall-clock latency and the constant `indices_searched =
["mock-data"]` carry no logical content and are omitted). -/
structure MockQueryResult where
  results : List LogResult
  totalHits : Nat
deriving Repr, BEq

/-- The default sort configuration `[{"timestamp": {"order": "desc"}}]`. -/
def defaultSortConfig : J :=
  .arr [.obj [("timestamp", .obj [("order", .str "desc")])]]

/-- `sort_config[0]`: first element of a list (or first character of a
string); `IndexError` when empty, `TypeError`/`KeyError` otherwise. -/
def pyIndexZero (v : J) : Except String J :=
  match v with
  | .arr [] => .error "IndexError"
  | .arr (x :: _) => .ok x
  | .str s =>
    match s.data with
    | [] => .error "IndexError"
    | c :: _ => .ok (.str (String.mk [c]))
  | _ => .error "TypeError: not subscriptable"

/-- `list(d.keys())[0]`: the first key of a dict. -/
def firstKey (v : J) : Except String String :=
  match v with
  | .obj [] => .error "IndexError"
  | .obj (kv :: _) => .ok kv.1
  | _ => .error "AttributeError: keys"

/-- `filtered_data[:size]`: Python slicing, where a negative bound counts from
the end, `None` keeps everything, and other types raise `TypeError`. -/
def pySliceTo (xs : List J) (size : J) : Except String (List J) :=
  match toNumQ size with
  | some n =>
    .ok (if n ≥ 0 then xs.take n.toNat else xs.take (xs.length - (-n).toNat))
  | none =>
    match size with
    | .null => .ok xs
    | _ => .error "TypeError: slice indices"

/-- `SIEMConnector._query_mock_data`: filter, sort (only when the first sort
field is literally `"timestamp"`), truncate to `size` (default 20), convert,
and report the pre-truncation count as `total_hits`.  A non-dict DSL value is
replaced by `{}` (the `json.loads` re-parse of string DSLs is not modelled;
all claims use dict queries). -/
def queryMockData (mockData : List J) (dslQuery0 : J) : Except String MockQueryResult := do
  let dslQuery := match dslQuery0 with
    | .obj _ => dslQuery0
    | _ => .obj []
  let filtered ← applyMockFilters mockData dslQuery
  let sortConfig ← jGetD dslQuery "sort" defaultSortConfig
  let sorted ←
    if pyTruthy sortConfig then do
      let first ← pyIndexZero sortConfig
      let sortField ← firstKey first
      let fieldVal ← jIndex first sortField
      let orderVal ← jGetD fieldVal "order" (.str "desc")
      let reverseSort := orderVal == J.str "desc"
      if sortField = "timestamp" then
        sortByTimestamp reverseSort filtered
      else
        pure filtered
    else
      pure filtered
  let sizeJ ← jGetD dslQuery "size" (.num 20)
  let resultsData ← pySliceTo sorted sizeJ
  let results ← resultsData.mapM convertMockToLogResult
  return { results := results, totalHits := filtered.length }

/-! ### The backend query executor (`_query_opensearch`, lines 149-180)

The index-iteration loop is embedded over an abstract response type `ρ` with
an abstract hit-count extractor and a search oracle that may raise
(`NotFoundError`, timeouts, ...); the surrounding response processing is
independent of the loop's selection logic. -/

/-- The `for index_pattern in wazuh_indices` loop: a raising lookup leaves the
running `response` unchanged and continues; a successful lookup overwrites it
and the loop stops at the first positive hit count. -/
def opensearchScan {ρ : Type} (hitsOf : ρ → Nat) (search : String → Except Unit ρ) :
    List String → Option ρ → Option ρ
  | [], response => response
  | idx :: rest, response =>
    match search idx with
    | .error _ => opensearchScan hitsOf search rest response
    | .ok r =>
      if hitsOf r > 0 then some r
      else opensearchScan hitsOf search rest (some r)

/-- Specification-side reading: the response of the first index whose lookup
succeeds with a positive hit count, skipping raising indices. -/
def firstHitResponse {ρ : Type} (hitsOf : ρ → Nat) (search : String → Except Unit ρ) :
    List String → Option ρ
  | [] => none
  | idx :: rest =>
    match search idx with
    | .ok r => if hitsOf r > 0 then some r else firstHitResponse hitsOf search rest
    | .error _ => firstHitResponse hitsOf search rest

/-- Specification-side reading: the response of the last index whose lookup
succeeds (the "last attempted" result when every attempted index came back
empty). -/
def lastSuccess {ρ : Type} (search : String → Except Unit ρ) : List String → Option ρ
  | [] => none
  | idx :: rest =>
    match lastSuccess search rest with
    | some r => some r
    | none =>
      match search idx with
      | .ok r => some r
      | .error _ => none

/-! ### The conversation context store (`context_manager.py`)

`datetime.now()` is passed in explicitly as a second counter; `timedelta`
comparisons become truncated `Nat` subtraction (a clock that never runs
backwards within a session's life, as in the source's usage). -/

/-- `models.ContextEntry`. -/
structure ContextEntry where
  timestamp : Nat
  query : String
  dslQuery : J
  resultCount : Int
  summary : String
deriving Repr, BEq

/-- `models.ConversationContext`. -/
structure ConversationContext where
  sessionId : String
  history : List ContextEntry
  activeFilters : List (String × J)
  lastUpdated : Nat
deriving Repr, BEq

/-- `ContextManager`'s registry state (the lock serialises every operation,
so each operation is one state transition). -/
structure ContextManager where
  sessions : List (String × ConversationContext)
  maxSessions : Nat
  sessionTimeout : Nat
deriving Repr, BEq

/-- A fresh registry (`max_sessions=1000`, `session_timeout_hours=24` by
default; the timeout is stored in seconds). -/
def ContextManager.mk0 (maxSessions : Nat := 1000) (timeoutSeconds : Nat := 86400) :
    ContextManager :=
  { sessions := [], maxSessions := maxSessions, sessionTimeout := timeoutSeconds }

/-- `ContextManager._cleanup_expired_sessions`. -/
def cleanupExpiredSessions (now : Nat) (m : ContextManager) : ContextManager :=
  { m with sessions :=
      m.sessions.filter (fun sc => decide (now - sc.2.lastUpdated ≤ m.sessionTimeout)) }

/-- `min(keys, key=last_updated)`: the first key attaining the minimal
last-activity time, in dict iteration (insertion) order. -/
def oldestSession : List (String × ConversationContext) → Option String
  | [] => none
  | sc :: rest =>
    some ((rest.foldl (fun best x => if x.2.lastUpdated < best.2.lastUpdated then x else best) sc).1)

/-- `ContextManager._remove_oldest_session`. -/
def removeOldestSession (m : ContextManager) : ContextManager :=
  match oldestSession m.sessions with
  | none => m
  | some sid => { m with sessions := m.sessions.filter (fun sc => sc.1 != sid) }

/-- CPython dict assignment `d[k] = v`: overwrite in place, or append for a
new key. -/
def dictSet {α : Type} (kvs : List (String × α)) (k : String) (v : α) : List (String × α) :=
  if kvs.any (fun kv => kv.1 == k) then
    kvs.map (fun kv => if kv.1 == k then (k, v) else kv)
  else
    kvs ++ [(k, v)]

/-- One condition of `_update_active_filters.process_conditions`: recognised
`range`/`term`/`terms` shapes overwrite derived filter entries. -/
def processFilterCondition (filters : List (String × J)) (cond : J) :
    Except String (List (String × J)) := do
  match cond with
  | .obj _ => do
    let hasRange ← pyContains cond (.str "range")
    let rangeObj ←
      if hasRange then do
        let rv ← jIndex cond "range"
        match rv with
        | .obj _ => pure (some rv)
        | _ => pure none
      else pure none
    match rangeObj with
    | some rv => do
      let (field, rangeConfig) ← firstItem rv
      if field = "@timestamp" || field = "timestamp" then
        return dictSet filters "time_range" rangeConfig
      else if field = "rule.level" then
        return dictSet filters "severity_filter" rangeConfig
      else
        return filters
    | none => do
      let hasTerm ← pyContains cond (.str "term")
      let termObj ←
        if hasTerm then do
          let tv ← jIndex cond "term"
          match tv with
          | .obj _ => pure (some tv)
          | _ => pure none
        else pure none
      match termObj with
      | some tv => do
        let (field, value) ← firstItem tv
        return dictSet filters ("filter_" ++ field) value
      | none => do
        let hasTerms ← pyContains cond (.str "terms")
        let termsObj ←
          if hasTerms then do
            let tv ← jIndex cond "terms"
            match tv with
            | .obj _ => pure (some tv)
            | _ => pure none
          else pure none
        match termsObj with
        | some tv => do
          let (field, values) ← firstItem tv
          if field = "rule.groups" then
            return dictSet filters "rule_groups" values
          else
            return filters
        | none => return filters
  | _ => return filters

/-- `process_conditions(conditions or [])`. -/
def processFilterConditions (filters : List (String × J)) (conds : J) :
    Except String (List (String × J)) := do
  let condsList ← if pyTruthy conds then pyIter conds else pure []
  condsList.foldlM processFilterCondition filters

/-- The filters map computed by `ContextManager._update_active_filters`:
inspects the `filter` then the `must` clauses; later queries overwrite
same-key entries. -/
def deriveActiveFilters (filters : List (String × J)) (dslQuery : J) :
    Except String (List (String × J)) := do
  let queryObj ← jGetD dslQuery "query" (.obj [])
  let queryBool ←
    match queryObj with
    | .obj _ => jGetD queryObj "bool" (.obj [])
    | _ => pure (J.obj [])
  let fConds ← jGetD queryBool "filter" (.arr [])
  let f1 ← processFilterConditions filters fConds
  let mConds ← jGetD queryBool "must" (.arr [])
  processFilterConditions f1 mConds

/-- `ContextManager._update_active_filters` mutates only `active_filters`. -/
def updateActiveFilters (ctx : ConversationContext) (dslQuery : J) :
    Except String ConversationContext :=
  (deriveActiveFilters ctx.activeFilters dslQuery).map
    (fun f2 => { ctx with activeFilters := f2 })

/-- CPython dict update preserving the position of existing keys. -/
def updateSession (sessions : List (String × ConversationContext)) (sid : String)
    (ctx : ConversationContext) : List (String × ConversationContext) :=
  if sessions.any (fun sc => sc.1 == sid) then
    sessions.map (fun sc => if sc.1 == sid then (sid, ctx) else sc)
  else
    sessions ++ [(sid, ctx)]

/-- `ContextManager.add_to_context`: lazy expiry sweep, get-or-create (with
capacity eviction of the oldest session when creating), history append
truncated to the most recent 10 entries, filter derivation, timestamp
update. -/
def addToContext (m : ContextManager) (now : Nat) (sessionId : String) (query : String)
    (dslQuery : J) (resultCount : Int) (summary : String) : Except String ContextManager := do
  let m := cleanupExpiredSessions now m
  let (ctx, m) :=
    match lookupKey m.sessions sessionId with
    | some c => (c, m)
    | none =>
      let c : ConversationContext :=
        { sessionId := sessionId, history := [], activeFilters := [], lastUpdated := now }
      let m := if m.sessions.length ≥ m.maxSessions then removeOldestSession m else m
      (c, m)
  let entry : ContextEntry :=
    { timestamp := now, query := query, dslQuery := dslQuery,
      resultCount := resultCount, summary := summary }
  let hist := ctx.history ++ [entry]
  let hist := if hist.length > 10 then hist.drop (hist.length - 10) else hist
  let ctx ← updateActiveFilters { ctx with history := hist } dslQuery
  let ctx := { ctx with lastUpdated := now }
  return { m with sessions := updateSession m.sessions sessionId ctx }

/-! ### The retry/fallback strategist (spec section 4.4)

Modelled from the spec: the Retry/Fallback Strategist is not present under
`src/` (only its collaborators `query_siem` and the NL translation layer are);
the candidate list construction and the first-hit selection loop below follow
the spec's words in sections 4.4 and 8. -/

/-- Modelled from the spec: the fixed phrase set of the "failed
authentication" intent pattern (lexical keyword match). -/
def failedAuthPhrases : List String :=
  ["failed login", "failed logins", "failed authentication", "authentication failure",
   "login failure"]

/-- Modelled from the spec: lexical intent detection over the lower-cased
question text. -/
def matchesFailedAuthIntent (question : String) : Bool :=
  failedAuthPhrases.any (fun p => strContains (pyLower question) p)

/-- One candidate query formulation with its strategy label. -/
structure Candidate where
  label : String
  query : J
deriving Repr, BEq

/-- Modelled from the spec: force `track_total_hits` to true on a query. -/
def forceTrackTotalHits (q : J) : J :=
  match q with
  | .obj kvs => .obj (dictSet kvs "track_total_hits" (.bool true))
  | _ => .obj [("track_total_hits", .bool true)]

/-- Modelled from the spec: candidate 2, a `should`-phrase match across
message/description fields for failure-related phrases. -/
def phrasesCandidate : Candidate :=
  { label := "phrases_message_description"
    query := .obj [("track_total_hits", .bool true),
      ("query", .obj [("bool", .obj [
        ("should", .arr [
          .obj [("match_phrase", .obj [("message", .str "authentication failure")])],
          .obj [("match_phrase", .obj [("message", .str "failed login")])],
          .obj [("match_phrase", .obj [("rule.description", .str "authentication failure")])],
          .obj [("match_phrase", .obj [("rule.description", .str "failed login")])]]),
        ("minimum_should_match", .num 1)])])] }

/-- Modelled from the spec: candidate 3, a broad lexical OR across
message/description/raw-log fields. -/
def broadOrCandidate : Candidate :=
  { label := "broad_or_message_description_full_log"
    query := .obj [("track_total_hits", .bool true),
      ("query", .obj [("bool", .obj [
        ("should", .arr [
          .obj [("match", .obj [("message", .str "failed")])],
          .obj [("match", .obj [("rule.description", .str "failed")])],
          .obj [("match", .obj [("full_log", .str "failed")])]]),
        ("minimum_should_match", .num 1)])])] }

/-- Modelled from the spec: candidate 4, a wildcard match against the
description field for failure-related substrings. -/
def wildcardCandidate : Candidate :=
  { label := "wildcard_description"
    query := .obj [("track_total_hits", .bool true),
      ("query", .obj [("wildcard", .obj [("rule.description",
        .obj [("value", .str "*fail*")])])])] }

/-- Modelled from the spec: the ordered candidate list, four entries under
the failed-authentication intent and the primary query alone otherwise. -/
def buildCandidates (question : String) (primary : J) : List Candidate :=
  if matchesFailedAuthIntent question then
    [{ label := "primary", query := forceTrackTotalHits primary },
     phrasesCandidate,
     broadOrCandidate,
     wildcardCandidate]
  else
    [{ label := "primary", query := forceTrackTotalHits primary }]

/-- Modelled from the spec: the execution loop — try candidates in order,
return at the first whose hit count exceeds zero, skip raising candidates,
and return the last candidate attempted when all are exhausted. -/
def resolveLoop {ρ : Type} (exec : J → Except Unit ρ) (hitsOf : ρ → Nat) :
    List Candidate → Option (Candidate × Except Unit ρ)
  | [] => none
  | [c] => some (c, exec c.query)
  | c :: c2 :: rest =>
    match exec c.query with
    | .ok r =>
      if hitsOf r > 0 then some (c, .ok r)
      else resolveLoop exec hitsOf (c2 :: rest)
    | .error _ => resolveLoop exec hitsOf (c2 :: rest)

/-- Modelled from the spec: `resolve(question, primaryQuery)`. -/
def resolveStrategy {ρ : Type} (exec : J → Except Unit ρ) (hitsOf : ρ → Nat)
    (question : String) (primary : J) : Option (Candidate × Except Unit ρ) :=
  resolveLoop exec hitsOf (buildCandidates question primary)

/-! ### Concrete scenario data used by the claims -/

/-- A `bool` query built from `must`, `should` and `filter` clause lists. -/
def mkBoolQuery (must should filterC : List J) : J :=
  .obj [("query", .obj [("bool", .obj
    [("must", .arr must), ("should", .arr should), ("filter", .arr filterC)])])]

/-- The same `bool` query carrying an additional `must_not` clause list. -/
def mkBoolQueryMN (must should filterC mustNot : List J) : J :=
  .obj [("query", .obj [("bool", .obj
    [("must", .arr must), ("should", .arr should), ("filter", .arr filterC),
     ("must_not", .arr mustNot)])])]

/-- The spec's end-to-end scenario record (section 8), with the stable
`event_id` the corpus format carries. -/
def specRecord : J :=
  .obj [("timestamp", .str "2025-01-01T00:00:00Z"),
        ("event_id", .str "e1"),
        ("rule", .obj [("id", .str "60122"), ("level", .num 8),
                       ("description", .str "failed login")]),
        ("data", .obj [("srcip", .str "10.0.0.5")])]

/-- A second record matching nothing interesting: different rule id, earlier
timestamp. -/
def otherRecord : J :=
  .obj [("timestamp", .str "2024-12-30T00:00:00Z"),
        ("event_id", .str "e2"),
        ("rule", .obj [("id", .str "99999"), ("level", .num 3),
                       ("description", .str "system ok")]),
        ("data", .obj [("srcip", .str "10.0.0.6")])]

/-- The spec's top-level term query `{"query":{"term":{"rule.id":"60122"}}}`. -/
def specTermQuery : J :=
  .obj [("query", .obj [("term", .obj [("rule.id", .str "60122")])])]

/-- A `match_all` DSL query (used when recording context entries). -/
def matchAllDsl : J := .obj [("query", .obj [("match_all", .obj [])])]

/-- Fifteen successive recordings into one session of a fresh default
registry, at seconds 1..15 (the second of recording identifies each entry). -/
def c8run : Except String ContextManager :=
  (List.range 15).foldlM
    (fun m i => addToContext m (i + 1) "s" "q" matchAllDsl 0 "")
    (ContextManager.mk0)

/-- The session context after one recording (second 1, session "s"). -/
def c8witCtx : ConversationContext :=
  { sessionId := "s"
    history := [{ timestamp := 1, query := "q", dslQuery := matchAllDsl,
                  resultCount := 0, summary := "" }]
    activeFilters := []
    lastUpdated := 1 }

/-- The registry state after one recording (second 1, session "s"): the
expected value of `addToContext` on a fresh default registry. -/
def c8witState : ContextManager :=
  { sessions := [("s", c8witCtx)]
    maxSessions := 1000
    sessionTimeout := 86400 }

/-- A two-session registry whose session "b" has the strictly oldest
last-activity time. -/
def c9witReg : ContextManager :=
  { sessions :=
      [("a", { sessionId := "a", history := [], activeFilters := [], lastUpdated := 5 }),
       ("b", { sessionId := "b", history := [], activeFilters := [], lastUpdated := 3 })]
    maxSessions := 2
    sessionTimeout := 86400 }

/-- A concrete backend executor for the strategist: positive hits only for
candidate 2's phrase query. -/
def c5WitnessExec : J → Except Unit Nat :=
  fun q => if q == phrasesCandidate.query then .ok 3 else .ok 0

/-- Three recordings for distinct session ids into a registry with
`max_sessions = 2`, at the given times. -/
def c9run (t1 t2 t3 : Nat) : Except String ContextManager := do
  let m ← addToContext (ContextManager.mk0 2) t1 "alice" "q1" matchAllDsl 0 ""
  let m ← addToContext m t2 "bob" "q2" matchAllDsl 0 ""
  addToContext m t3 "carol" "q3" matchAllDsl 0 ""

/-! ## Theorems -/

/-- Binding a successful `Except` computation runs the continuation. -/
theorem ok_bind {ε α β : Type} (a : α) (f : α → Except ε β) :
    (Except.ok a >>= f : Except ε β) = f a := rfl

/-- A `filterM` whose predicate never raises is an ordinary filter. -/
theorem filterM_pure (p : J → Bool) (data : List J) :
    filterM (fun x => Except.ok (p x)) data = .ok (data.filter p) := by
  induction data with
  | nil => rfl
  | cons x xs ih =>
    show (Except.ok (p x) >>= fun b => filterM _ xs >>= fun rest =>
      if b then pure (x :: rest) else pure rest) = _
    rw [ok_bind, ih, ok_bind]
    cases h : p x <;> simp [List.filter, h] <;> rfl

/-- A successful `lookupKey` result is a member of the association list. -/
theorem lookupKey_mem {α : Type} {l : List (String × α)} {k : String} {v : α}
    (h : lookupKey l k = some v) : (k, v) ∈ l := by
  induction l with
  | nil => simp [lookupKey] at h
  | cons kv rest ih =>
    by_cases hk : kv.1 = k
    · rw [lookupKey, if_pos hk] at h
      cases h
      subst hk
      exact List.mem_cons_self _ _
    · rw [lookupKey, if_neg hk] at h
      exact List.mem_cons_of_mem _ (ih h)

/-- `_update_active_filters` leaves the history untouched. -/
theorem updateActiveFilters_history {ctx ctx' : ConversationContext} {dsl : J}
    (h : updateActiveFilters ctx dsl = .ok ctx') : ctx'.history = ctx.history := by
  unfold updateActiveFilters at h
  cases hd : deriveActiveFilters ctx.activeFilters dsl with
  | ok f2 =>
    rw [hd] at h
    simp only [Except.map] at h
    cases h
    rfl
  | error e =>
    rw [hd] at h
    simp [Except.map] at h

/-- C1 (counterexample): the claim "the pre-truncation filtered set consists
of exactly the records for which the predicate holds; in particular, for a
top-level `term` query exactly the records whose deep-get value equals the
literal" is false: on a two-record corpus where exactly one record has
`rule.id = "60122"`, the top-level term query leaves both records in the
filtered set (`total_hits = 2`), because `_apply_mock_filters` reads only
`query["bool"]`. -/
theorem c1_counterexample :
    (queryMockData [specRecord, otherRecord] specTermQuery).map
        (fun r => (r.totalHits, r.results.map (fun lr => lr.raw_data))) =
      .ok (2, [specRecord, otherRecord]) ∧
    [specRecord, otherRecord].filter
        (fun r => getNestedValue r "rule.id" == J.str "60122") = [specRecord] :=
  ⟨rfl, rfl⟩

/-- C1 (amended): the Dataset Query Executor filters only through the `bool`
wrapper of the query node: whenever the query node carries no `bool` key (for
example a top-level `term` query), the filtered set is the whole corpus; the
spec's concrete single-record scenario still returns exactly that record with
`total_hits = 1` because its corpus has exactly one (matching) record. -/
theorem c1_bool_only_filtering :
    (∀ (data : List J) (dsl q : J),
      jGetD dsl "query" (J.obj []) = .ok q →
      jGetD q "bool" (J.obj []) = .ok (J.obj []) →
      applyMockFilters data dsl = .ok data) ∧
    (queryMockData [specRecord] specTermQuery).map
        (fun r => (r.totalHits, r.results.map (fun lr => lr.raw_data))) =
      .ok (1, [specRecord]) := by
  refine ⟨fun data dsl q h1 h2 => ?_, rfl⟩
  unfold applyMockFilters
  rw [h1, ok_bind, h2, ok_bind]
  rfl

/-- C1 (witness): the general part applied to a concrete corpus and the
spec's term query. -/
theorem c1_bool_only_filtering_witness :
    applyMockFilters [otherRecord] specTermQuery = .ok [otherRecord] :=
  c1_bool_only_filtering.1 [otherRecord] specTermQuery
    (J.obj [("term", J.obj [("rule.id", J.str "60122")])]) rfl rfl

/-- C2 (counterexample): the claim "the filtered set equals exactly the
records satisfying every `must` clause AND at least one `should` clause" is
false: `specRecord` fails the `must` clause (`rule.id = "zzz"`) yet is
returned, because a non-empty `should` group discards the `must`-filtered
result and re-filters the original corpus. -/
theorem c2_counterexample :
    applyMockFilters [specRecord]
        (mkBoolQuery [J.obj [("term", J.obj [("rule.id", J.str "zzz")])]]
                     [J.obj [("term", J.obj [("rule.id", J.str "60122")])]] []) =
      .ok [specRecord] ∧
    (getNestedValue specRecord "rule.id" == J.str "zzz") = false :=
  ⟨rfl, rfl⟩

/-- C2 (amended): when the `should` list is non-empty the `must` clauses have
no effect on the outcome (provided their own evaluation does not raise): the
filtered set is the de-duplicated union of the `should` matches over the full
corpus, AND-ed with the `filter` clauses only. -/
theorem c2_should_discards_must (data : List J) (must should filterC : List J)
    (d' : List J) (hs : should ≠ []) (hm : applyCondList data must = .ok d') :
    applyMockFilters data (mkBoolQuery must should filterC) =
      applyMockFilters data (mkBoolQuery [] should filterC) := by
  obtain ⟨c, cs, rfl⟩ := List.exists_cons_of_ne_nil hs
  have expand : applyMockFilters data (mkBoolQuery must (c :: cs) filterC) =
      applyCondList data must >>=
        (fun _ => applyMockFilters data (mkBoolQuery [] (c :: cs) filterC)) := rfl
  rw [expand, hm, ok_bind]

/-- C2 (witness): the amended theorem applied to the counterexample corpus. -/
theorem c2_should_discards_must_witness :
    applyMockFilters [specRecord]
        (mkBoolQuery [J.obj [("term", J.obj [("rule.id", J.str "zzz")])]]
                     [J.obj [("term", J.obj [("rule.id", J.str "60122")])]] []) =
      applyMockFilters [specRecord]
        (mkBoolQuery []
                     [J.obj [("term", J.obj [("rule.id", J.str "60122")])]] []) :=
  c2_should_discards_must [specRecord]
    [J.obj [("term", J.obj [("rule.id", J.str "zzz")])]]
    [J.obj [("term", J.obj [("rule.id", J.str "60122")])]] [] []
    (List.cons_ne_nil _ _) rfl

/-- C3 (code_bug): the totality claim is right about the spec's intent but
the code raises: (a) the default descending-timestamp sort raises `KeyError`
on a record with no `timestamp`; (b) a `match` condition whose literal is not
a string raises `AttributeError` on `value.lower()`; (c) `should`
de-duplication raises `KeyError` on a record lacking `event_id`. -/
theorem c3_executor_raises :
    queryMockData [J.obj [("event_id", J.str "e1")]] (J.obj []) =
      .error "KeyError: timestamp" ∧
    applyCondition [specRecord] (J.obj [("match", J.obj [("rule.level", J.num 7)])]) =
      .error "AttributeError: lower" ∧
    applyMockFilters [J.obj []]
        (mkBoolQuery [] [J.obj [("match_all", J.obj [])]] []) =
      .error "KeyError: event_id" :=
  ⟨rfl, rfl, rfl⟩

/-- C4 (counterexample): the claim "the filtered set excludes every record
matched by any `must_not` clause" is false: `specRecord` is matched by the
`must_not` term clause yet remains in the filtered set, because
`_apply_mock_filters` never reads `must_not`. -/
theorem c4_counterexample :
    applyMockFilters [specRecord]
        (J.obj [("query", J.obj [("bool", J.obj [("must_not",
          J.arr [J.obj [("term", J.obj [("rule.id", J.str "60122")])]])])])]) =
      .ok [specRecord] ∧
    (getNestedValue specRecord "rule.id" == J.str "60122") = true :=
  ⟨rfl, rfl⟩

/-- C4 (amended): `must_not` clauses are ignored by the Dataset Query
Executor: the filtered set is identical with and without any `must_not` list,
so records matched by `must_not` clauses are not excluded. -/
theorem c4_mustnot_ignored (data : List J) (must should filterC mustNot : List J) :
    applyMockFilters data (mkBoolQueryMN must should filterC mustNot) =
      applyMockFilters data (mkBoolQuery must should filterC) := rfl

/-- C7 (counterexample): the claim "absent value never matches" is false: an
absent field stringifies to `"None"`, so the match literal `"none"` matches a
record on which the field is absent. -/
theorem c7_counterexample :
    getNestedValue (J.obj []) "f" = J.null ∧
    applyCondition [J.obj []] (J.obj [("match", J.obj [("f", J.str "none")])]) =
      .ok [J.obj []] :=
  ⟨rfl, rfl⟩

/-- C7 (amended): a `match` condition with string literal keeps exactly the
records whose lower-cased string form of the deep-get value contains the
lower-cased literal; when the field is absent the string form is `"None"`, so
the condition matches exactly when the lower-cased literal is a substring of
`"none"` (rather than never). -/
theorem c7_match_semantics (data : List J) (f v : String) :
    applyCondition data (J.obj [("match", J.obj [(f, J.str v)])]) =
      .ok (data.filter
        (fun r => strContains (pyLower (pyStr (getNestedValue r f))) (pyLower v))) ∧
    ∀ r : J, getNestedValue r f = J.null →
      strContains (pyLower (pyStr (getNestedValue r f))) (pyLower v) =
        strContains "none" (pyLower v) := by
  constructor
  · show filterM (fun item => Except.ok
      (strContains (pyLower (pyStr (getNestedValue item f))) (pyLower v))) data = _
    exact filterM_pure _ data
  · intro r h
    rw [h]
    rfl

/-- C7 (witness): the amended theorem applied to the empty record and the
literal `"none"`. -/
theorem c7_match_semantics_witness :
    applyCondition [J.obj []] (J.obj [("match", J.obj [("f", J.str "none")])]) =
      .ok ([J.obj []].filter
        (fun r => strContains (pyLower (pyStr (getNestedValue r "f"))) (pyLower "none"))) ∧
    strContains (pyLower (pyStr (getNestedValue (J.obj []) "f"))) (pyLower "none") =
      strContains "none" (pyLower "none") :=
  ⟨(c7_match_semantics [J.obj []] "f" "none").1,
   (c7_match_semantics [J.obj []] "f" "none").2 (J.obj []) rfl⟩

/-- C10: the numeric rule level maps to fixed severity buckets — at least 10
to critical, 8..9 to high, 5..7 to medium, 1..4 to low, and at most 0 to no
severity; a record without a rule level defaults to level 0 and therefore to
no severity. -/
theorem c10_severity_buckets :
    (∀ level : Int,
      (mapLevelToSeverity level = some .critical ↔ 10 ≤ level) ∧
      (mapLevelToSeverity level = some .high ↔ 8 ≤ level ∧ level ≤ 9) ∧
      (mapLevelToSeverity level = some .medium ↔ 5 ≤ level ∧ level ≤ 7) ∧
      (mapLevelToSeverity level = some .low ↔ 1 ≤ level ∧ level ≤ 4) ∧
      (mapLevelToSeverity level = none ↔ level ≤ 0)) ∧
    (convertMockToLogResult (J.obj [])).map (fun r => r.severity) = .ok none := by
  refine ⟨fun level => ?_, rfl⟩
  unfold mapLevelToSeverity
  split_ifs with h1 h2 h3 h4 <;>
    refine ⟨?_, ?_, ?_, ?_, ?_⟩ <;> constructor <;> intro h <;>
    simp_all <;> omega

/-- The index-scan loop, over any accumulated response: its result is the
first positive-hit response if one exists, otherwise the last successful
response, otherwise the accumulator. -/
theorem opensearchScan_characterization {ρ : Type} (hitsOf : ρ → Nat)
    (search : String → Except Unit ρ) (indices : List String) :
    ∀ acc : Option ρ,
      opensearchScan hitsOf search indices acc =
        match firstHitResponse hitsOf search indices with
        | some r => some r
        | none =>
          match lastSuccess search indices with
          | some r => some r
          | none => acc := by
  induction indices with
  | nil => intro acc; rfl
  | cons idx rest ih =>
    intro acc
    cases hs : search idx with
    | error e =>
      rw [opensearchScan, hs, ih, firstHitResponse, hs, lastSuccess, hs]
      cases firstHitResponse hitsOf search rest <;>
        cases lastSuccess search rest <;> simp
    | ok r =>
      by_cases hh : hitsOf r > 0
      · simp only [opensearchScan, hs, firstHitResponse, lastSuccess]
        rw [if_pos hh, if_pos hh]
      · simp only [opensearchScan, hs, firstHitResponse, lastSuccess]
        rw [if_neg hh, if_neg hh, ih]
        cases firstHitResponse hitsOf search rest <;>
          cases lastSuccess search rest <;> simp

/-- C6: the Backend Query Executor's index loop is total and returns the
response of the first index whose lookup succeeds with a positive hit count
(indices whose lookup raises are skipped and iteration continues); when no
attempted index yields hits, it returns the last successfully attempted
(empty) response without raising, and when every lookup raises it falls
through to the mock-data path (`none`). -/
theorem c6_first_hit_index {ρ : Type} (hitsOf : ρ → Nat)
    (search : String → Except Unit ρ) (indices : List String) :
    opensearchScan hitsOf search indices none =
      match firstHitResponse hitsOf search indices with
      | some r => some r
      | none => lastSuccess search indices := by
  rw [opensearchScan_characterization]
  cases firstHitResponse hitsOf search indices <;>
    cases lastSuccess search indices <;> rfl

/-- C5: for a question matching the failed-authentication intent (it contains
"failed login" after lower-casing), the strategist builds exactly four
candidates; when the primary query executes with zero hits and candidate 2
(the phrase match) executes with at least one hit, the resolution returns
candidate 2's results under the label `"phrases_message_description"`. -/
theorem c5_retry_strategist {ρ : Type} (exec : J → Except Unit ρ) (hitsOf : ρ → Nat)
    (question : String) (primary : J) (r0 r2 : ρ)
    (hq : strContains (pyLower question) "failed login" = true)
    (h0 : exec (forceTrackTotalHits primary) = .ok r0) (h0z : hitsOf r0 = 0)
    (hp : exec phrasesCandidate.query = .ok r2) (hph : hitsOf r2 > 0) :
    (buildCandidates question primary).length = 4 ∧
    resolveStrategy exec hitsOf question primary = some (phrasesCandidate, .ok r2) ∧
    phrasesCandidate.label = "phrases_message_description" := by
  have hintent : matchesFailedAuthIntent question = true := by
    unfold matchesFailedAuthIntent failedAuthPhrases
    simp [hq]
  unfold resolveStrategy buildCandidates
  rw [hintent]
  refine ⟨rfl, ?_, rfl⟩
  rw [if_pos rfl]
  simp only [resolveLoop, h0, h0z]
  norm_num
  simp only [hp]
  simp [hph]

/-- C5 (witness): the strategist theorem at a concrete question, corpus
executor and hit counts. -/
theorem c5_retry_strategist_witness :
    resolveStrategy c5WitnessExec id "show failed login attempts" (J.obj []) =
      some (phrasesCandidate, .ok 3) :=
  (c5_retry_strategist c5WitnessExec id "show failed login attempts" (J.obj []) 0 3
    rfl rfl rfl rfl (by decide)).2.1

/-- Appending then truncating to the last ten entries leaves at most ten. -/
theorem truncHistory_le (l : List ContextEntry) (e : ContextEntry) :
    (if (l ++ [e]).length > 10 then
      (l ++ [e]).drop ((l ++ [e]).length - 10) else l ++ [e]).length ≤ 10 := by
  by_cases h : (l ++ [e]).length > 10
  · simp only [if_pos h, List.length_drop]
    omega
  · simp only [if_neg h]
    omega

/-- The history bound survives a dict update whose new value also satisfies
it. -/
theorem updateSession_bound {s : List (String × ConversationContext)} {sid : String}
    {ctx : ConversationContext}
    (hs : ∀ p ∈ s, p.2.history.length ≤ 10) (hc : ctx.history.length ≤ 10) :
    ∀ p ∈ updateSession s sid ctx, p.2.history.length ≤ 10 := by
  intro p hp
  unfold updateSession at hp
  by_cases hany : s.any (fun sc => sc.1 == sid)
  · rw [if_pos hany] at hp
    obtain ⟨a, ha, hfa⟩ := List.mem_map.mp hp
    by_cases hk : a.1 == sid
    · rw [if_pos hk] at hfa
      rw [← hfa]
      exact hc
    · rw [if_neg hk] at hfa
      rw [← hfa]
      exact hs a ha
  · rw [if_neg hany] at hp
    rcases List.mem_append.mp hp with h | h
    · exact hs p h
    · rw [List.mem_singleton.mp h]
      exact hc

/-- The history bound survives the expiry sweep. -/
theorem cleanup_bound {m : ContextManager} {now : Nat}
    (hs : ∀ p ∈ m.sessions, p.2.history.length ≤ 10) :
    ∀ p ∈ (cleanupExpiredSessions now m).sessions, p.2.history.length ≤ 10 := by
  intro p hp
  exact hs p (List.mem_filter.mp hp).1

/-- The history bound survives capacity eviction. -/
theorem removeOldest_bound {m : ContextManager}
    (hs : ∀ p ∈ m.sessions, p.2.history.length ≤ 10) :
    ∀ p ∈ (removeOldestSession m).sessions, p.2.history.length ≤ 10 := by
  intro p hp
  unfold removeOldestSession at hp
  cases ho : oldestSession m.sessions with
  | none => rw [ho] at hp; exact hs p hp
  | some sid => rw [ho] at hp; exact hs p (List.mem_filter.mp hp).1

/-- C8: the per-session history bound is an invariant of recording — any
registry whose histories all have at most 10 entries still has that property
after `add_to_context` — and concretely, after 15 recordings into one session
the history holds exactly the 10 most recent entries (seconds 6..15) in their
original insertion order. -/
theorem c8_history_bounded :
    (∀ (m : ContextManager) (now : Nat) (sid q sm : String) (dsl : J) (rc : Int)
       (m' : ContextManager),
       (∀ p ∈ m.sessions, p.2.history.length ≤ 10) →
       addToContext m now sid q dsl rc sm = .ok m' →
       ∀ p ∈ m'.sessions, p.2.history.length ≤ 10) ∧
    c8run.map (fun m => (lookupKey m.sessions "s").map
        (fun c => (c.history.length, c.history.map (fun e => e.timestamp)))) =
      .ok (some (10, [6, 7, 8, 9, 10, 11, 12, 13, 14, 15])) := by
  refine ⟨?_, rfl⟩
  intro m now sid q sm dsl rc m' hinv hadd
  unfold addToContext at hadd
  simp only [] at hadd
  have hinv1 : ∀ p ∈ (cleanupExpiredSessions now m).sessions, p.2.history.length ≤ 10 :=
    cleanup_bound hinv
  cases hlk : lookupKey (cleanupExpiredSessions now m).sessions sid with
  | some c =>
    rw [hlk] at hadd
    have hc : c.history.length ≤ 10 := hinv1 (sid, c) (lookupKey_mem hlk)
    cases hu : updateActiveFilters
        { c with history := if (c.history ++ [_]).length > 10 then _ else _ } dsl with
    | ok ctx' =>
      rw [hu] at hadd
      cases hadd
      refine updateSession_bound hinv1 ?_
      have hh := updateActiveFilters_history hu
      simp only [ConversationContext.mk.injEq] at hh ⊢
      show ctx'.history.length ≤ 10
      rw [hh]
      exact truncHistory_le c.history _
    | error e =>
      rw [hu] at hadd
      exact absurd hadd (by simp)
  | none =>
    rw [hlk] at hadd
    set m2 := if (cleanupExpiredSessions now m).sessions.length ≥ m.maxSessions then
        removeOldestSession (cleanupExpiredSessions now m)
      else cleanupExpiredSessions now m with hm2
    have hinv2 : ∀ p ∈ m2.sessions, p.2.history.length ≤ 10 := by
      rw [hm2]
      split
      · exact removeOldest_bound hinv1
      · exact hinv1
    cases hu : updateActiveFilters
        { sessionId := sid, history := _, activeFilters := [], lastUpdated := now } dsl with
    | ok ctx' =>
      rw [hu] at hadd
      cases hadd
      refine updateSession_bound hinv2 ?_
      have hh := updateActiveFilters_history hu
      show ctx'.history.length ≤ 10
      rw [hh]
      exact truncHistory_le [] _
    | error e =>
      rw [hu] at hadd
      exact absurd hadd (by simp)

/-- C8 (witness): the invariant applied to the empty registry and one
recording. -/
theorem c8_history_bounded_witness :
    (("s", c8witCtx) : String × ConversationContext).2.history.length ≤ 10 :=
  c8_history_bounded.1 (ContextManager.mk0) 1 "s" "q" "" matchAllDsl 0 c8witState
    (fun p hp => absurd hp (List.not_mem_nil p)) rfl
    ("s", c8witCtx) (by simp [c8witState])

/-- The running minimum of the `min(..., key=last_updated)` fold is one of
the candidates. -/
theorem oldestFoldl_mem (rest : List (String × ConversationContext)) :
    ∀ best : String × ConversationContext,
      rest.foldl
        (fun best x => if x.2.lastUpdated < best.2.lastUpdated then x else best) best
        ∈ best :: rest := by
  induction rest with
  | nil => intro best; exact List.mem_cons_self _ _
  | cons x xs ih =>
    intro best
    rw [List.foldl_cons]
    by_cases hc : x.2.lastUpdated < best.2.lastUpdated
    · rw [if_pos hc]
      rcases List.mem_cons.mp (ih x) with h1 | h1
      · rw [h1]
        exact List.mem_cons_of_mem _ (List.mem_cons_self _ _)
      · exact List.mem_cons_of_mem _ (List.mem_cons_of_mem _ h1)
    · rw [if_neg hc]
      rcases List.mem_cons.mp (ih best) with h1 | h1
      · rw [h1]
        exact List.mem_cons_self _ _
      · exact List.mem_cons_of_mem _ (List.mem_cons_of_mem _ h1)

/-- The running minimum of the `min(..., key=last_updated)` fold has the
least last-activity time among the candidates. -/
theorem oldestFoldl_le (rest : List (String × ConversationContext)) :
    ∀ best p, p ∈ best :: rest →
      (rest.foldl
        (fun best x => if x.2.lastUpdated < best.2.lastUpdated then x else best)
        best).2.lastUpdated ≤ p.2.lastUpdated := by
  induction rest with
  | nil =>
    intro best p hp
    rw [List.foldl_nil, List.mem_singleton.mp hp]
  | cons x xs ih =>
    intro best p hp
    rw [List.foldl_cons]
    by_cases hc : x.2.lastUpdated < best.2.lastUpdated
    · rw [if_pos hc]
      rcases List.mem_cons.mp hp with h1 | h1
      · have := ih x x (List.mem_cons_self _ _)
        rw [h1]
        omega
      · exact ih x p h1
    · rw [if_neg hc]
      rcases List.mem_cons.mp hp with h1 | h1
      · rw [h1]
        exact ih best best (List.mem_cons_self _ _)
      · rcases List.mem_cons.mp h1 with h2 | h2
        · have := ih best best (List.mem_cons_self _ _)
          rw [h2]
          omega
        · exact ih best p (List.mem_cons_of_mem _ h2)

/-- C9: capacity eviction removes exactly the session with the strictly
oldest last-activity time; concretely, with `max_sessions = 2`, recording for
three distinct session ids leaves exactly the two sessions that were not
oldest at the moment of eviction — whether the oldest was the first inserted
(times 1,2,3 evict "alice") or not (times 5,2,7 evict "bob"). -/
theorem c9_capacity_eviction :
    (∀ (m : ContextManager) (sc : String × ConversationContext),
       sc ∈ m.sessions →
       (∀ p ∈ m.sessions, p ≠ sc → sc.2.lastUpdated < p.2.lastUpdated) →
       (removeOldestSession m).sessions = m.sessions.filter (fun p => p.1 != sc.1)) ∧
    (c9run 1 2 3).map (fun m => m.sessions.map (fun p => p.1)) = .ok ["bob", "carol"] ∧
    (c9run 5 2 7).map (fun m => m.sessions.map (fun p => p.1)) = .ok ["alice", "carol"] := by
  refine ⟨?_, rfl, rfl⟩
  intro m sc hmem hmin
  obtain ⟨s0, rest, hs⟩ : ∃ s0 rest, m.sessions = s0 :: rest := by
    cases hcase : m.sessions with
    | nil => rw [hcase] at hmem; exact absurd hmem (List.not_mem_nil sc)
    | cons a l => exact ⟨a, l, rfl⟩
  have hrmem : rest.foldl
      (fun best x => if x.2.lastUpdated < best.2.lastUpdated then x else best) s0
      ∈ m.sessions := by
    rw [hs]
    exact oldestFoldl_mem rest s0
  have hrsc : rest.foldl
      (fun best x => if x.2.lastUpdated < best.2.lastUpdated then x else best) s0 = sc := by
    by_contra hne
    have h1 := hmin _ hrmem hne
    have h2 := oldestFoldl_le rest s0 sc (by rw [← hs]; exact hmem)
    omega
  have holdest : oldestSession m.sessions = some sc.1 := by
    rw [hs]
    show some ((rest.foldl
      (fun best x => if x.2.lastUpdated < best.2.lastUpdated then x else best) s0).1) = _
    rw [hrsc]
  unfold removeOldestSession
  rw [holdest]

/-- C9 (witness): the eviction theorem applied to a concrete two-session
registry whose second-inserted session is the oldest. -/
theorem c9_capacity_eviction_witness :
    (removeOldestSession c9witReg).sessions =
      c9witReg.sessions.filter (fun p => p.1 != "b") :=
  c9_capacity_eviction.1 c9witReg
    ("b", { sessionId := "b", history := [], activeFilters := [], lastUpdated := 3 })
    (by simp [c9witReg])
    (by
      intro p hp hne
      simp only [c9witReg, List.mem_cons, List.not_mem_nil, or_false] at hp
      rcases hp with h1 | h1
      · rw [h1]
        decide
      · exact absurd h1 hne)

end SiemAgent
